import Mathlib

/-!
Verification of the query-optimizer core of `graphene-django-query-optimizer`.

Shallow embedding of the source files under `src/query_optimizer/`:
  * `utils.py` — `calculate_queryset_slice`, `parse_order_by_args`,
    `order_queryset`, `uses_contenttypes`, `mark_optimized` / `is_optimized`;
  * `optimizer.py` — `QueryOptimizer.compile`, `compile_select`,
    `compile_prefetch`, `get_prefetch_queryset`, `optimize_queryset`;
  * `compiler.py` — `optimize`, `OptimizationCompiler.compile`,
    `increase_complexity`;
  * `settings.py` — `DefaultSettings`;
  * `fields.py` — the nested-count read in
    `DjangoConnectionField.connection_resolver`.

Parts of the repository referenced by those files but absent from `src/`
(`validators.py`, `errors.py`, the AST walker in `ast.py`) are modelled
from the specification; each such definition carries a doc comment
starting with `Modelled from the spec:`.

Dotted accessor paths such as `"a__b"` are modelled as `List String`
segment chains (`["a", "b"]`); a plain column name is a one-segment path.
Python `Optional[int]` values are `Option Int`.
-/

namespace QueryOptimizerProof

/-! ## Pagination slice (`utils.calculate_queryset_slice`) -/

/-- Embedding of `utils.py::calculate_queryset_slice`.  Works on the
validated arguments; returns the Python `slice(start, stop)` as a pair. -/
def calculate_queryset_slice (after before first last : Option Int) (size : Int) : Int × Int :=
  let start : Int := 0
  let stop : Int := size
  let start : Int := match after with
    | none => start
    | some a => min a stop
  let stop : Int := match before with
    | none => stop
    | some b => min b stop
  let stop : Int := match first with
    | none => stop
    | some f => if f < stop - start then start + f else stop
  let start : Int := match last with
    | none => start
    | some l => if l < stop - start then stop - l else start
  (start, stop)

/-- The Relay pagination algorithm exactly as the claim states it:
start = 0 and stop = size initially; if `after` is given,
start = min(after, stop); if `before` is given, stop = min(before, stop);
if `first` is given and first < stop − start, stop = start + first;
if `last` is given and last < stop − start, start = stop − last.
Stated separately from the source embedding so the two can be compared. -/
def relay_spec_slice (after before first last : Option Int) (size : Int) : Int × Int :=
  let step1 : Int × Int := (0, size)
  let step2 : Int × Int := match after with
    | none => step1
    | some a => (min a step1.2, step1.2)
  let step3 : Int × Int := match before with
    | none => step2
    | some b => (step2.1, min b step2.2)
  let step4 : Int × Int := match first with
    | none => step3
    | some f => if f < step3.2 - step3.1 then (step3.1, step3.1 + f) else step3
  let step5 : Int × Int := match last with
    | none => step4
    | some l => if l < step4.2 - step4.1 then (step4.2 - l, step4.2) else step4
  step5

/-! ## Complexity guard (`compiler.OptimizationCompiler.increase_complexity`) -/

/-- Default of `DefaultSettings.MAX_COMPLEXITY` in `settings.py`. -/
def MAX_COMPLEXITY : Nat := 10

/-- Python truthiness fallback `a or b` for `Optional[int]` values:
`None` and `0` are falsy.  Used by
`OptimizationCompiler.__init__`: `max_complexity or optimizer_settings.MAX_COMPLEXITY`. -/
def pyOrNat (a : Option Nat) (b : Nat) : Nat :=
  match a with
  | none => b
  | some m => if m = 0 then b else m

/-- The complexity ceiling actually used by `OptimizationCompiler.__init__`. -/
def effectiveMaxComplexity (override : Option Nat) : Nat :=
  pyOrNat override MAX_COMPLEXITY

/-- Embedding of `compiler.py::OptimizationCompiler.increase_complexity`:
increment the counter (the increment itself lives in the base walker),
then raise once the counter exceeds the ceiling.  The error value carries
the counter at the moment of the raise. -/
def increase_complexity (maxComplexity c : Nat) : Except Nat Nat :=
  let c := c + 1
  if maxComplexity < c then .error c else .ok c

/-- Modelled from the spec: the `GraphQLASTWalker` base class lives in
`ast.py`, which is absent from `src/`.  Per the spec, the walker
"maintains an integer counter, incremented once per to-one or to-many
child registration", calling `increase_complexity` on every relation
descent.  A selection is therefore represented by its total number of
relation descents, and the walk iterates `increase_complexity`. -/
def run_walk (maxComplexity : Nat) : Nat → Nat → Except Nat Nat
  | 0, c => .ok c
  | n + 1, c =>
    match increase_complexity maxComplexity c with
    | .error e => .error e
    | .ok c' => run_walk maxComplexity n c'

/-! ## Settings (`settings.DefaultSettings`) -/

/-- The string-valued entries of `settings.py::DefaultSettings`, as
(setting name, default value) pairs.  Note the count key is registered
under the name `OPTIMIZER_PREFETCH_COUNT_KEY`. -/
def defaultSettingsStrings : List (String × String) :=
  [("QUERY_CACHE_KEY", "_query_cache"),
   ("OPTIMIZER_MARK", "_optimized"),
   ("OPTIMIZER_PREFETCH_COUNT_KEY", "_optimizer_count"),
   ("DEFAULT_FILTERSET_CLASS", "")]

/-- Attribute access on the settings holder: `optimizer_settings.<name>`
resolves among the declared defaults (an undeclared name has no value). -/
def settingLookup (name : String) : Option String :=
  defaultSettingsStrings.lookup name

/-- Default of `DefaultSettings.OPTIMIZER_MARK`. -/
def OPTIMIZER_MARK : String := "_optimized"

/-- Helper for `pySplitComma`: accumulate the current piece while
scanning the character list. -/
def splitCommaAux : List Char → String → List String
  | [], acc => [acc]
  | c :: cs, acc =>
    if c = ',' then acc :: splitCommaAux cs "" else splitCommaAux cs (acc.push c)

/-- Python's `str.split(",")` (note `"".split(",") == [""]`). -/
def pySplitComma (s : String) : List String :=
  splitCommaAux s.data ""

/-! ## Model metadata and `utils.uses_contenttypes` -/

/-- One entry of `model._meta.fields` with the properties inspected by
`uses_contenttypes`. -/
structure ModelField where
  is_generic_foreign_key : Bool
  is_foreign_key : Bool
  related_model_is_content_type : Bool
deriving DecidableEq

/-- Embedding of `utils.py::uses_contenttypes`: first scan the model's
fields for a `GenericForeignKey`, then scan them for a `ForeignKey`
whose related model is `ContentType`. -/
def uses_contenttypes (fields : List ModelField) : Bool :=
  if fields.any (fun f => f.is_generic_foreign_key) then true
  else if fields.any (fun f => f.is_foreign_key && f.related_model_is_content_type) then true
  else false

/-! ## Optimizer tree (`optimizer.QueryOptimizer`) and plan compilation

Dotted lookup paths (`"a__b"`) are modelled as segment lists
(`["a", "b"]`); `Prefetch.add_prefix(name)` and the `f-string`
prefixing in `compile_select` become `List.cons name`. -/

/-- The per-model accumulator `optimizer.py::QueryOptimizer`, restricted
to the fields read by `compile` / `optimize_queryset`:
`only_fields`, `related_fields`, `annotations` (its keys), and the
`select_related` / `prefetch_related` child maps in insertion order. -/
inductive QueryOptimizer where
  | mk (only_fields related_fields annotations : List String)
       (select_related prefetch_related : List (String × QueryOptimizer))

/-- Projection for the `only_fields` attribute. -/
def QueryOptimizer.only_fields : QueryOptimizer → List String
  | .mk o _ _ _ _ => o

/-- Projection for the `related_fields` attribute. -/
def QueryOptimizer.related_fields : QueryOptimizer → List String
  | .mk _ r _ _ _ => r

/-- Projection for the keys of the `annotations` attribute. -/
def QueryOptimizer.annotations : QueryOptimizer → List String
  | .mk _ _ a _ _ => a

/-- Projection for the `select_related` child map. -/
def QueryOptimizer.select_related : QueryOptimizer → List (String × QueryOptimizer)
  | .mk _ _ _ s _ => s

/-- Projection for the `prefetch_related` child map. -/
def QueryOptimizer.prefetch_related : QueryOptimizer → List (String × QueryOptimizer)
  | .mk _ _ _ _ p => p

/-- The flattened directives produced by `QueryOptimizer.compile`
(`optimizer.py::CompilationResults`), with dotted paths as segment
lists.  Prefetch descriptors are reduced to their accessor paths. -/
structure CompilationResults where
  only_fields : List (List String)
  select_related : List (List String)
  prefetch_related : List (List String)
deriving DecidableEq

/-- Embedding of `optimizer.py::QueryOptimizer.compile` together with
`compile_select` / `compile_prefetch`:

* results start from a copy of the node's `only_fields`;
* for each `select_related` child: if the child's own `annotations` are
  non-empty it is promoted to a prefetch (`compile_prefetch` appends a
  `Prefetch` under the accessor name), otherwise `compile_select`
  appends the accessor to `select_related`, compiles the child, and
  prefixes the child's only fields, joins, and prefetches with the
  accessor name;
* each `prefetch_related` child contributes a `Prefetch` under its
  accessor name. -/
def QueryOptimizer.compile : QueryOptimizer → CompilationResults
  | .mk o _rf _anns sels prefs =>
    { only_fields := o.map (fun f => [f]) ++
        sels.attach.flatMap (fun p =>
          if p.1.2.annotations ≠ [] then []
          else (p.1.2.compile).only_fields.map (fun q => p.1.1 :: q)),
      select_related :=
        sels.attach.flatMap (fun p =>
          if p.1.2.annotations ≠ [] then []
          else [p.1.1] :: (p.1.2.compile).select_related.map (fun q => p.1.1 :: q)),
      prefetch_related :=
        (sels.attach.flatMap (fun p =>
          if p.1.2.annotations ≠ [] then [[p.1.1]]
          else (p.1.2.compile).prefetch_related.map (fun q => p.1.1 :: q))) ++
        prefs.map (fun p => [p.1]) }
termination_by t => sizeOf t
decreasing_by
  all_goals
    simp_wf
    obtain ⟨⟨n, c⟩, hp⟩ := p
    have h := List.sizeOf_lt_of_mem hp
    simp at h ⊢
    omega

/-! ## QuerySets, the optimized mark, and `optimize_queryset` -/

/-- Abstract relational query state: the Django `QuerySet` surface
touched by the optimizer.  `hints` is the `_hints` dictionary (clones
carry it along); `only = none` means no projection restriction. -/
structure QuerySet where
  model_ordering : List String
  model_fields : List ModelField
  hints : String → Bool
  select_related : List (List String)
  prefetch_related : List (List String)
  only : Option (List (List String))
  annotated : List String
  ordering : List String

/-- Embedding of `utils.py::mark_optimized`:
`queryset._hints[optimizer_settings.OPTIMIZER_MARK] = True`. -/
def mark_optimized (qs : QuerySet) : QuerySet :=
  { qs with hints := fun k => if k = OPTIMIZER_MARK then true else qs.hints k }

/-- Embedding of `utils.py::is_optimized`:
`queryset._hints.get(optimizer_settings.OPTIMIZER_MARK, False)`. -/
def is_optimized (qs : QuerySet) : Bool :=
  qs.hints OPTIMIZER_MARK

/-- The `uses_contenttypes(queryset.model)` block of
`optimizer.py::QueryOptimizer.optimize_queryset` (lines 81–99): when the
model uses contenttypes, append `"object_id"` to `self.related_fields`,
append `"content_type"` and `"tag__name"` to `results.only_fields`, and
append `"content_type"` to `results.select_related`; otherwise do
nothing. -/
def contenttypes_step (related_fields : List String) (results : CompilationResults)
    (fields : List ModelField) : List String × CompilationResults :=
  if uses_contenttypes fields then
    (related_fields ++ ["object_id"],
     { results with
        only_fields := results.only_fields ++ [["content_type"], ["tag", "name"]],
        select_related := results.select_related ++ [["content_type"]] })
  else (related_fields, results)

/-- Result of `optimize_queryset`: the transformed queryset together
with the optimizer's (possibly extended) `related_fields` and the
(possibly extended) compilation results. -/
structure OptimizeOutcome where
  queryset : QuerySet
  related_fields : List String
  results : CompilationResults

/-- Embedding of `optimizer.py::QueryOptimizer.optimize_queryset`.
`hook` stands for the external `get_filtered_queryset` narrowing and
filterset application (both delegate outside the core); the remaining
steps follow the source order: contenttypes block, `prefetch_related`,
`select_related`, `only` (unless disabled), `annotate`, and finally
`mark_optimized`. -/
def optimize_queryset (hook : QuerySet → QuerySet) (t : QueryOptimizer)
    (disable_only_fields : Bool) (qs : QuerySet) : OptimizeOutcome :=
  let results := t.compile
  let qs := hook qs
  let step := contenttypes_step t.related_fields results qs.model_fields
  let rf := step.1
  let results := step.2
  let qs := if results.prefetch_related ≠ [] then
      { qs with prefetch_related := qs.prefetch_related ++ results.prefetch_related } else qs
  let qs := if results.select_related ≠ [] then
      { qs with select_related := qs.select_related ++ results.select_related } else qs
  let qs := if ¬disable_only_fields ∧ (results.only_fields ≠ [] ∨ rf ≠ []) then
      { qs with only := some (results.only_fields ++ rf.map (fun f => [f])) } else qs
  let qs := if t.annotations ≠ [] then
      { qs with annotated := qs.annotated ++ t.annotations } else qs
  ⟨mark_optimized qs, rf, results⟩

/-! ## Top-level ordering (`utils.parse_order_by_args`, `utils.order_queryset`) -/

/-- The `list[str] | str | None` argument of `parse_order_by_args`. -/
inductive OrderByArg where
  | noValue
  | strValue (s : String)
  | listValue (l : List String)

/-- Embedding of `utils.py::parse_order_by_args`; `snake` is graphene's
external `to_snake_case`.  A truthy argument is split (for strings) and
snake-cased; a falsy argument falls back to the model's `Meta.ordering`,
or `None` when that is empty. -/
def parse_order_by_args (snake : String → String) (model_ordering : List String) :
    OrderByArg → Option (List String)
  | .strValue s =>
      if s ≠ "" then some ((pySplitComma s).map snake)
      else if model_ordering ≠ [] then some (model_ordering.map snake) else none
  | .listValue l =>
      if l ≠ [] then some (l.map snake)
      else if model_ordering ≠ [] then some (model_ordering.map snake) else none
  | .noValue =>
      if model_ordering ≠ [] then some (model_ordering.map snake) else none

/-- Embedding of `utils.py::order_queryset`: `queryset.order_by(*order_by)`. -/
def order_queryset (qs : QuerySet) (order_by : List String) : QuerySet :=
  { qs with ordering := order_by }

/-! ## Entry API (`compiler.optimize`, `compiler.OptimizationCompiler.compile`) -/

/-- Errors escaping the AST walk, as routed by the `try/except` in
`OptimizationCompiler.compile`: `complexityExceeded` is the
`OptimizerError` raised by `increase_complexity` (a known error), and
`unexpectedError` stands for any other exception. -/
inductive WalkError where
  | complexityExceeded
  | unexpectedError
deriving DecidableEq

/-- Embedding of `compiler.py::OptimizationCompiler.compile`: return
`none` early when the queryset is already optimized; otherwise run the
walk (`walkResult` is its outcome), re-raising known optimizer errors
unconditionally, and swallowing unexpected errors (returning `none`)
exactly when `SKIP_OPTIMIZATION_ON_ERROR` is set. -/
def compiler_compile (qs : QuerySet) (walkResult : Except WalkError QueryOptimizer)
    (skip_on_error : Bool) : Except WalkError (Option QueryOptimizer) :=
  if is_optimized qs then .ok none
  else match walkResult with
    | .ok t => .ok (some t)
    | .error .complexityExceeded => .error .complexityExceeded
    | .error .unexpectedError =>
        if skip_on_error then .ok none else .error .unexpectedError

/-- Embedding of `compiler.py::optimize`: compile; when the compiler
returns no optimizer, hand back the given queryset unchanged; otherwise
run `optimize_queryset`, then apply top-level ordering from the filter
info's `order_by` via `parse_order_by_args` / `order_queryset` (the
query-cache store does not alter the queryset). -/
def optimize (hook : QuerySet → QuerySet) (snake : String → String)
    (walkResult : Except WalkError QueryOptimizer) (skip_on_error disable_only_fields : Bool)
    (order_by_arg : OrderByArg) (qs : QuerySet) : Except WalkError QuerySet :=
  match compiler_compile qs walkResult skip_on_error with
  | .error e => .error e
  | .ok none => .ok qs
  | .ok (some t) =>
    let qs2 := (optimize_queryset hook t disable_only_fields qs).queryset
    match parse_order_by_args snake qs2.model_ordering order_by_arg with
    | some l => .ok (if l ≠ [] then order_queryset qs2 l else qs2)
    | none => .ok qs2

/-! ## Nested pagination (`optimizer.QueryOptimizer.get_prefetch_queryset`) -/

/-- The dictionary returned by `validate_pagination_args`
(`PaginationArgs` in the missing `validators.py`/`typing.py`). -/
structure PaginationArgs where
  after : Option Int
  before : Option Int
  first : Option Int
  last : Option Int
  size : Option Int
deriving DecidableEq

/-- Is an optional value positive when present? -/
def posOk : Option Int → Bool
  | none => true
  | some v => 0 < v

/-- Is an optional value non-negative when present? -/
def nonNegOk : Option Int → Bool
  | none => true
  | some v => 0 ≤ v

/-- Are two optional values ordered when both present? -/
def pairOk : Option Int → Option Int → Bool
  | some a, some b => a ≤ b
  | _, _ => true

/-- Cap an optional value by an optional limit. -/
def capBy (v limit : Option Int) : Option Int :=
  match v, limit with
  | some v, some m => some (min v m)
  | v, _ => v

/-- Modelled from the spec: `validate_pagination_args` lives in
`validators.py`, which is absent from `src/`.  Per the spec (§4.5):
`first` and `last`, if present, must be positive; `after` and `before`
non-negative; if both `after` and `before` are given, `after ≤ before`;
`first` and `last` are capped by `max_limit` when configured; the slice
is computed over a known `size` (the configured connection limit;
`fields.py` overwrites it with the real count for top-level
connections).  The `offset` argument is folded into `after` when `after`
is absent (the top-level `offset` test expects `LIMIT 3 OFFSET 2` for
`offset: 2` over five rows). -/
def validate_pagination_args (first last offset after before max_limit : Option Int) :
    Except String PaginationArgs :=
  if ¬ posOk first then .error "first must be a positive integer"
  else if ¬ posOk last then .error "last must be a positive integer"
  else if ¬ nonNegOk offset then .error "offset must be a non-negative integer"
  else if ¬ nonNegOk after then .error "after must be a non-negative integer"
  else if ¬ nonNegOk before then .error "before must be a non-negative integer"
  else
    let after := match after with
      | none => offset
      | some a => some a
    if ¬ pairOk after before then .error "after must be less than or equal to before"
    else .ok ⟨after, before, capBy first max_limit, capBy last max_limit, max_limit⟩

/-- The window expression attached by `get_prefetch_queryset`:
`RowNumber` partitioned by the inverse foreign-key column and ordered by
the effective `order_by` (`none` = unordered window). -/
structure WindowSpec where
  partition_by : String
  order_by : Option (List String)
deriving DecidableEq

/-- The shape of the child queryset built by `get_prefetch_queryset`:
an optional `_row_number` window alias, the `_row_number__gte` /
`_row_number__lte` filter bounds, and the aliases added via
`.annotate(...)` (none are added in the source). -/
structure ChildQuery where
  window : Option WindowSpec
  rn_lo : Option Int
  rn_hi : Option Int
  annotations : List String
deriving DecidableEq

/-- The plain `model._default_manager.all()` child queryset. -/
def baseChildQuery : ChildQuery := ⟨none, none, none, []⟩

/-- The filter info consumed by `get_prefetch_queryset`: the
`is_connection` flag, the pagination entries of `filters`, and the raw
comma-separated `order_by` filter (`""` when absent). -/
structure GraphQLFilterInfo where
  is_connection : Bool
  first : Option Int
  last : Option Int
  offset : Option Int
  after : Option Int
  before : Option Int
  order_by : String
deriving DecidableEq

/-- Embedding of `optimizer.py::QueryOptimizer.get_prefetch_queryset`:

* a non-connection child is returned unlimited;
* pagination arguments are validated (with
  `RELAY_CONNECTION_MAX_LIMIT` as `max_limit`); if every validated value
  is `None` the queryset is returned unlimited;
* the slice is computed by `calculate_queryset_slice`;
* `parent_fields` maps relation accessors on the parent model to
  `field.remote_field.attname` (lookup failure logs a warning and
  returns the unlimited queryset);
* the window ordering is the filter info's split `order_by` if
  non-empty, else the child model's `Meta.ordering`, else `None`;
* the result filters `_row_number__gte=cut.start` and
  `_row_number__lte=cut.stop`. -/
def get_prefetch_queryset (parent_fields : List (String × String)) (name : String)
    (model_ordering : List String) (filter_info : GraphQLFilterInfo)
    (max_limit : Option Int) : Except String ChildQuery :=
  if ¬ filter_info.is_connection then .ok baseChildQuery
  else
    match validate_pagination_args filter_info.first filter_info.last filter_info.offset
        filter_info.after filter_info.before max_limit with
    | .error e => .error e
    | .ok pargs =>
      if pargs.after = none ∧ pargs.before = none ∧ pargs.first = none ∧
          pargs.last = none ∧ pargs.size = none then .ok baseChildQuery
      else
        match pargs.size with
        | none => .error "unsupported operand type for int and NoneType"
        | some size =>
          let cut := calculate_queryset_slice pargs.after pargs.before pargs.first pargs.last size
          match parent_fields.lookup name with
          | none => .ok baseChildQuery
          | some remote_attname =>
            let parsed := (pySplitComma filter_info.order_by).filter (fun x => x ≠ "")
            let order_by := if parsed ≠ [] then some parsed
              else if model_ordering ≠ [] then some model_ordering else none
            .ok { window := some ⟨remote_attname, order_by⟩,
                  rn_lo := some cut.1, rn_hi := some cut.2, annotations := [] }

/-- Evaluation of the child query on one parent partition: SQL
`ROW_NUMBER()` numbers the partition's rows 1, 2, …, `partition_size`
in window order, and a row is kept when it passes the
`_row_number__gte` / `_row_number__lte` filters. -/
def keptRowNumbers (q : ChildQuery) (partition_size : Nat) : List Nat :=
  ((List.range partition_size).map (fun i => i + 1)).filter (fun rn =>
    (match q.rn_lo with
      | none => true
      | some lo => decide (lo ≤ (rn : Int))) &&
    (match q.rn_hi with
      | none => true
      | some hi => decide ((rn : Int) ≤ hi)))

/-- The nested branch of the count computation in
`fields.py::DjangoConnectionField.connection_resolver` (lines 293–299):
read the count annotation from the first row of the materialized result
cache, defaulting to 0 (a row is its annotation map here). -/
def nested_connection_count (rows : List (List (String × Int))) : Int :=
  match rows.head? with
  | none => 0
  | some row => (row.lookup "_optimizer_count").getD 0

/-- The claim's nested window ordering, stated for comparison:
FilterInfo `order_by` when present, else the child model's default
ordering, else the primary key. -/
def spec_nested_order (parsed model_ordering : List String) (pk : String) : List String :=
  if parsed ≠ [] then parsed
  else if model_ordering ≠ [] then model_ordering
  else [pk]

/-- A plain unoptimized queryset used to instantiate witnesses. -/
def sampleQuerySet : QuerySet :=
  { model_ordering := ["name"], model_fields := [],
    hints := fun _ => false, select_related := [], prefetch_related := [],
    only := none, annotated := [], ordering := [] }

/-- A queryset over a model with a `ForeignKey` to `ContentType`. -/
def ctQuerySet : QuerySet :=
  { model_ordering := [], model_fields := [⟨false, true, true⟩],
    hints := fun _ => false, select_related := [], prefetch_related := [],
    only := none, annotated := [], ordering := [] }

/-! ## Concrete nested-connection inputs

These mirror `tests/test_pagination.py`: buildings with an `apartments`
to-many relation whose inverse foreign-key column is `building_id`, the
`Apartment` model's `Meta.ordering`
(`['street_address', 'stair', '-apartment_number']` per the example
migrations), partitions of three rows, and graphene's default
`RELAY_CONNECTION_MAX_LIMIT = 100`. -/

/-- Apartment default ordering from the example app's migrations. -/
def apartmentOrdering : List String :=
  ["street_address", "stair", "-apartment_number"]

/-- Filter info of a nested connection `apartments(offset: 2)`
(validation folds `offset` into `after`). -/
def offsetFilterInfo : GraphQLFilterInfo :=
  { is_connection := true, first := none, last := none, offset := some 2,
    after := none, before := none, order_by := "" }

/-- The child query the source builds for `apartments(offset: 2)`. -/
def offsetChildQuery : ChildQuery :=
  { window := some ⟨"building_id", some apartmentOrdering⟩,
    rn_lo := some 2, rn_hi := some 100, annotations := [] }

/-- Filter info of a nested connection `apartments(last: 2)`. -/
def lastFilterInfo : GraphQLFilterInfo :=
  { is_connection := true, first := none, last := some 2, offset := none,
    after := none, before := none, order_by := "" }

/-- The child query the source builds for `apartments(last: 2)`. -/
def lastChildQuery : ChildQuery :=
  { window := some ⟨"building_id", some apartmentOrdering⟩,
    rn_lo := some 98, rn_hi := some 100, annotations := [] }

/-- Filter info of a nested connection `video_assets(first: 2)` with no
`order_by` argument, on a child model with no default `Meta.ordering`. -/
def noOrderFilterInfo : GraphQLFilterInfo :=
  { is_connection := true, first := some 2, last := none, offset := none,
    after := none, before := none, order_by := "" }

/-- The child query the source builds for that selection. -/
def noOrderChildQuery : ChildQuery :=
  { window := some ⟨"library_id", none⟩,
    rn_lo := some 0, rn_hi := some 2, annotations := [] }

/-- A child optimizer carrying an annotation. -/
def exInner : QueryOptimizer := .mk [] [] ["full_name"] [] []

/-- An annotation-free middle optimizer whose descendant `exInner`
carries annotations. -/
def exMid : QueryOptimizer := .mk ["name"] [] [] [("b", exInner)] []

/-- A root optimizer that selects `exMid` via `select_related`. -/
def exRoot : QueryOptimizer := .mk [] [] [] [("a", exMid)] []

/-- Eliminate the termination bookkeeping: `flatMap` over `attach` with
a proof-irrelevant body equals `flatMap` over the bare list. -/
theorem attach_flatMap {α β : Type} (l : List α) (f : α → List β) :
    l.attach.flatMap (fun p => f p.1) = l.flatMap f := by
  conv_rhs => rw [← List.attach_map_subtype_val l, List.flatMap_map]

/-- Unfolded form of `QueryOptimizer.compile`, free of `List.attach`. -/
theorem QueryOptimizer.compile_eq (o rf anns : List String)
    (sels prefs : List (String × QueryOptimizer)) :
    (QueryOptimizer.mk o rf anns sels prefs).compile =
    { only_fields := o.map (fun f => [f]) ++
        sels.flatMap (fun x =>
          if x.2.annotations ≠ [] then []
          else (x.2.compile).only_fields.map (fun q => x.1 :: q)),
      select_related :=
        sels.flatMap (fun x =>
          if x.2.annotations ≠ [] then []
          else [x.1] :: (x.2.compile).select_related.map (fun q => x.1 :: q)),
      prefetch_related :=
        (sels.flatMap (fun x =>
          if x.2.annotations ≠ [] then [[x.1]]
          else (x.2.compile).prefetch_related.map (fun q => x.1 :: q))) ++
        prefs.map (fun p => [p.1]) } := by
  rw [QueryOptimizer.compile]
  rw [attach_flatMap sels (fun x =>
    if x.2.annotations ≠ [] then []
    else (x.2.compile).only_fields.map (fun q => x.1 :: q))]
  rw [attach_flatMap sels (fun x =>
    if x.2.annotations ≠ [] then []
    else [x.1] :: (x.2.compile).select_related.map (fun q => x.1 :: q))]
  rw [attach_flatMap sels (fun x =>
    if x.2.annotations ≠ [] then [[x.1]]
    else (x.2.compile).prefetch_related.map (fun q => x.1 :: q))]

theorem run_walk_spec (maxComplexity n : Nat) :
    ∀ c, c ≤ maxComplexity →
      run_walk maxComplexity n c =
        if c + n ≤ maxComplexity then .ok (c + n) else .error (maxComplexity + 1) := by
  induction n with
  | zero => intro c hc; simp [run_walk, hc]
  | succ n ih =>
    intro c hc
    simp only [run_walk, increase_complexity]
    by_cases h : maxComplexity < c + 1
    · have hc1 : c = maxComplexity := by omega
      subst hc1
      rw [if_pos h, if_neg (by omega)]
    · rw [if_neg h]
      change run_walk maxComplexity n (c + 1) = _
      rw [ih (c + 1) (by omega)]
      have e : c + 1 + n = c + (n + 1) := by omega
      rw [e]

/-- C1: for every validated input (first and last positive or absent, after
and before non-negative or absent, after ≤ before when both given,
size ≥ 0), `calculate_queryset_slice` returns exactly the `[start, stop)`
slice of the Relay pagination algorithm as stated by the claim
(`relay_spec_slice`), and the result satisfies 0 ≤ start ≤ stop ≤ size. -/
theorem calculate_queryset_slice_follows_relay
    (after before first last : Option Int) (size : Int)
    (hsize : 0 ≤ size)
    (hfirst : ∀ f, first = some f → 0 < f)
    (hlast : ∀ l, last = some l → 0 < l)
    (hafter : ∀ a, after = some a → 0 ≤ a)
    (hbefore : ∀ b, before = some b → 0 ≤ b)
    (hab : ∀ a, after = some a → ∀ b, before = some b → a ≤ b) :
    calculate_queryset_slice after before first last size =
      relay_spec_slice after before first last size ∧
    0 ≤ (calculate_queryset_slice after before first last size).1 ∧
    (calculate_queryset_slice after before first last size).1 ≤
      (calculate_queryset_slice after before first last size).2 ∧
    (calculate_queryset_slice after before first last size).2 ≤ size := by
  refine ⟨?_, ?_⟩
  · cases after <;> cases before <;> cases first <;> cases last <;>
      simp only [calculate_queryset_slice, relay_spec_slice] <;>
      split_ifs <;> rfl
  · rcases after with _ | a <;> rcases before with _ | b <;>
      rcases first with _ | f <;> rcases last with _ | l
    all_goals (try have hf := hfirst _ rfl)
    all_goals (try have hl := hlast _ rfl)
    all_goals (try have ha := hafter _ rfl)
    all_goals (try have hb := hbefore _ rfl)
    all_goals (try have hab2 := hab _ rfl _ rfl)
    all_goals simp only [calculate_queryset_slice, min_def]
    all_goals (try split_ifs)
    all_goals refine ⟨?_, ?_, ?_⟩ <;> omega

/-- Witness for C1 at after = 1, before = 4, first = 2, last = 1, size = 6. -/
theorem calculate_queryset_slice_follows_relay_witness :
    calculate_queryset_slice (some 1) (some 4) (some 2) (some 1) 6 =
      relay_spec_slice (some 1) (some 4) (some 2) (some 1) 6 ∧
    0 ≤ (calculate_queryset_slice (some 1) (some 4) (some 2) (some 1) 6).1 ∧
    (calculate_queryset_slice (some 1) (some 4) (some 2) (some 1) 6).1 ≤
      (calculate_queryset_slice (some 1) (some 4) (some 2) (some 1) 6).2 ∧
    (calculate_queryset_slice (some 1) (some 4) (some 2) (some 1) 6).2 ≤ 6 :=
  calculate_queryset_slice_follows_relay (some 1) (some 4) (some 2) (some 1) 6
    (by decide)
    (fun f hf => by cases hf; decide)
    (fun l hl => by cases hl; decide)
    (fun a ha => by cases ha; decide)
    (fun b hb => by cases hb; decide)
    (fun a ha b hb => by cases ha; cases hb; decide)

/-- C7: optimize is idempotent with respect to the optimized mark: every
queryset returned by `optimize_queryset` carries the mark, and `optimize`
returns an already-marked queryset unchanged (the compiler
short-circuits before any optimization). -/
theorem optimize_idempotent_on_mark :
    (∀ hook t disable_only qs,
      is_optimized (optimize_queryset hook t disable_only qs).queryset = true) ∧
    (∀ hook snake walkResult skip disable_only order_by_arg qs,
      is_optimized qs = true →
      optimize hook snake walkResult skip disable_only order_by_arg qs = .ok qs) := by
  constructor
  · intro hook t disable_only qs
    simp [optimize_queryset, is_optimized, mark_optimized]
  · intro hook snake walkResult skip disable_only order_by_arg qs h
    simp [optimize, compiler_compile, h]

/-- Witness for C7 at a concrete marked queryset. -/
theorem optimize_idempotent_on_mark_witness :
    optimize id id (.ok (.mk [] [] [] [] [])) false false .noValue
        (mark_optimized sampleQuerySet) = .ok (mark_optimized sampleQuerySet) :=
  optimize_idempotent_on_mark.2 id id (.ok (.mk [] [] [] [] [])) false false .noValue
    (mark_optimized sampleQuerySet) (by decide)

/-- C9: during compilation a complexity-exceeded error (a known
`OptimizerError`) is re-raised regardless of `skip_optimization_on_error`,
while any other unexpected error makes `optimize` return the original
queryset unchanged when the setting is enabled, and propagate when it is
disabled. -/
theorem optimizer_error_routing
    (hook : QuerySet → QuerySet) (snake : String → String)
    (skip disable_only : Bool) (order_by_arg : OrderByArg) (qs : QuerySet)
    (h : is_optimized qs = false) :
    (optimize hook snake (.error .complexityExceeded) skip disable_only order_by_arg qs =
      .error .complexityExceeded) ∧
    (skip = true →
      optimize hook snake (.error .unexpectedError) skip disable_only order_by_arg qs = .ok qs) ∧
    (skip = false →
      optimize hook snake (.error .unexpectedError) skip disable_only order_by_arg qs =
        .error .unexpectedError) := by
  refine ⟨?_, ?_, ?_⟩
  · simp [optimize, compiler_compile, h]
  · intro hs; subst hs; simp [optimize, compiler_compile, h]
  · intro hs; subst hs; simp [optimize, compiler_compile, h]

/-- Witness for C9 at a concrete unoptimized queryset. -/
theorem optimizer_error_routing_witness :
    (optimize id id (.error .complexityExceeded) true false .noValue sampleQuerySet =
      .error .complexityExceeded) ∧
    (optimize id id (.error .unexpectedError) true false .noValue sampleQuerySet =
      .ok sampleQuerySet) :=
  ⟨(optimizer_error_routing id id true false .noValue sampleQuerySet (by decide)).1,
   (optimizer_error_routing id id true false .noValue sampleQuerySet (by decide)).2.1 rfl⟩

/-- C10: when the queryset's model declares a `GenericForeignKey` or a
`ForeignKey` to `ContentType`, `optimize_queryset` — independently of the
selection — appends `"object_id"` to the optimizer's `related_fields`,
appends `"content_type"` and `"tag__name"` (path `["tag", "name"]`) to
the projected columns, and adds `"content_type"` to the `select_related`
joins; models without contenttypes involvement are unaffected by this
step. -/
theorem contenttypes_auto_projection
    (hook : QuerySet → QuerySet) (t : QueryOptimizer) (disable_only : Bool)
    (qs : QuerySet) (hm : (hook qs).model_fields = qs.model_fields) :
    (uses_contenttypes qs.model_fields = true →
      (optimize_queryset hook t disable_only qs).related_fields =
        t.related_fields ++ ["object_id"] ∧
      (optimize_queryset hook t disable_only qs).results.only_fields =
        t.compile.only_fields ++ [["content_type"], ["tag", "name"]] ∧
      (optimize_queryset hook t disable_only qs).results.select_related =
        t.compile.select_related ++ [["content_type"]] ∧
      ["content_type"] ∈ (optimize_queryset hook t disable_only qs).queryset.select_related) ∧
    (uses_contenttypes qs.model_fields = false →
      (optimize_queryset hook t disable_only qs).related_fields = t.related_fields ∧
      (optimize_queryset hook t disable_only qs).results = t.compile) := by
  constructor
  · intro hct
    simp only [optimize_queryset, contenttypes_step, hm, hct, if_true]
    refine ⟨trivial, trivial, trivial, ?_⟩
    simp [mark_optimized, apply_ite QuerySet.select_related]
  · intro hct
    simp [optimize_queryset, contenttypes_step, hm, hct]

/-- Witness for C10: a contenttypes model gains the projections, a plain
model does not. -/
theorem contenttypes_auto_projection_witness :
    ((optimize_queryset id (.mk [] [] [] [] []) false ctQuerySet).related_fields =
        ["object_id"] ∧
      ["content_type"] ∈ (optimize_queryset id (.mk [] [] [] [] []) false
        ctQuerySet).queryset.select_related) ∧
    (optimize_queryset id (.mk [] [] [] [] []) false sampleQuerySet).related_fields = [] := by
  have h1 := (contenttypes_auto_projection id (.mk [] [] [] [] []) false ctQuerySet rfl).1
    (by decide)
  have h2 := (contenttypes_auto_projection id (.mk [] [] [] [] []) false sampleQuerySet rfl).2
    (by decide)
  exact ⟨⟨h1.1, h1.2.2.2⟩, h2.1⟩

/-- C8 counterexample: the claim makes the effective ceiling equal the
per-call override whenever one is given, so with override 0 a selection
with one relation descent (1 > 0) should raise; but
`max_complexity or optimizer_settings.MAX_COMPLEXITY` treats the falsy
override 0 as absent, the effective ceiling is the default 10, and the
walk of one descent succeeds without raising. -/
theorem zero_override_falls_back_to_default :
    effectiveMaxComplexity (some 0) = 10 ∧
    run_walk (effectiveMaxComplexity (some 0)) 1 0 = .ok 1 ∧
    1 > 0 :=
  ⟨rfl, rfl, by decide⟩

/-- C8 amended: the effective ceiling is the per-call override when
given and nonzero, else the global default 10; a selection whose
relation-descent count exceeds the ceiling raises exactly upon the
descent that crosses it (the error carries counter ceiling + 1), and a
selection at or below the ceiling never raises. -/
theorem complexity_ceiling (override : Option Nat) (n : Nat) :
    effectiveMaxComplexity none = 10 ∧
    (∀ k, k ≠ 0 → effectiveMaxComplexity (some k) = k) ∧
    (effectiveMaxComplexity override < n →
      run_walk (effectiveMaxComplexity override) n 0 =
        .error (effectiveMaxComplexity override + 1)) ∧
    (n ≤ effectiveMaxComplexity override →
      run_walk (effectiveMaxComplexity override) n 0 = .ok n) := by
  refine ⟨rfl, ?_, ?_, ?_⟩
  · intro k hk
    simp [effectiveMaxComplexity, pyOrNat, hk]
  · intro h
    rw [run_walk_spec _ _ 0 (Nat.zero_le _)]
    rw [if_neg (by omega)]
  · intro h
    rw [run_walk_spec _ _ 0 (Nat.zero_le _)]
    rw [if_pos (by omega), Nat.zero_add]

/-- Witness for C8 at override 3 with a 5-descent selection (raises at
descent 4) and a 2-descent selection (never raises). -/
theorem complexity_ceiling_witness :
    run_walk (effectiveMaxComplexity (some 3)) 5 0 =
      .error (effectiveMaxComplexity (some 3) + 1) ∧
    run_walk (effectiveMaxComplexity (some 3)) 2 0 = .ok 2 :=
  ⟨(complexity_ceiling (some 3) 5).2.2.1 (by decide),
   (complexity_ceiling (some 3) 2).2.2.2 (by decide)⟩

/-- C2: the window and partition column are built as claimed, but the
row filter keeps `start ≤ row_number ≤ stop` (`_row_number__gte`), not
`start < row_number ≤ stop`: for `offset: 2` over a three-row partition
the computed slice is `[2, 100)`, yet the row with `row_number = 2 =
start` is kept, so two rows survive where the claim (and
`test_pagination__nested__one_to_many__offset`, which expects only the
third row) allow one. -/
theorem nested_window_filter_off_by_one :
    get_prefetch_queryset [("apartments", "building_id")] "apartments"
        apartmentOrdering offsetFilterInfo (some 100) = .ok offsetChildQuery ∧
    calculate_queryset_slice (some 2) none none none 100 = (2, 100) ∧
    keptRowNumbers offsetChildQuery 3 = [2, 3] ∧
    2 ∈ keptRowNumbers offsetChildQuery 3 ∧
    keptRowNumbers offsetChildQuery 3 ≠ [3] :=
  ⟨rfl, rfl, rfl, by decide, by decide⟩

/-- C3: for a nested `last: 2` the source never computes partition sizes
(no `SubqueryCount`, no count annotation, no conditional
`partition_size − last` start): it slices against `size = max_limit =
100`, so the slice is `[98, 100)` and a three-row partition returns no
rows at all, where the claim (and
`test_pagination__nested__one_to_many__last`) require exactly the last
two rows (row numbers 2 and 3). -/
theorem nested_last_ignores_partition_size :
    get_prefetch_queryset [("apartments", "building_id")] "apartments"
        apartmentOrdering lastFilterInfo (some 100) = .ok lastChildQuery ∧
    lastChildQuery.annotations = [] ∧
    keptRowNumbers lastChildQuery 3 = [] ∧
    keptRowNumbers lastChildQuery 3 ≠ [2, 3] :=
  ⟨rfl, rfl, rfl, by decide⟩

/-- C5: the child queryset built for a nested connection carries no
annotations at all — in particular no `_optimizer_count` per-partition
count — and the resolver's fallback read of the absent annotation
reports 0 for a non-empty three-row partition; moreover the resolver
reads the setting name `PREFETCH_COUNT_KEY`, which the settings declare
only as `OPTIMIZER_PREFETCH_COUNT_KEY`. -/
theorem nested_count_annotation_missing :
    get_prefetch_queryset [("apartments", "building_id")] "apartments"
        apartmentOrdering lastFilterInfo (some 100) = .ok lastChildQuery ∧
    lastChildQuery.annotations = [] ∧
    settingLookup "PREFETCH_COUNT_KEY" = none ∧
    settingLookup "OPTIMIZER_PREFETCH_COUNT_KEY" = some "_optimizer_count" ∧
    nested_connection_count [[], [], []] = 0 ∧
    (0 : Int) ≠ 3 :=
  ⟨rfl, rfl, rfl, rfl, rfl, by decide⟩

/-- C6 counterexample: with no `order_by` in filter info and no model
default ordering, the claim requires the window to be ordered by the
primary key (`["id"]`), but the source's fallback chain ends at `None`:
the built window is unordered. -/
theorem nested_window_order_lacks_pk_fallback :
    get_prefetch_queryset [("video_assets", "library_id")] "video_assets"
        [] noOrderFilterInfo (some 100) = .ok noOrderChildQuery ∧
    noOrderChildQuery.window = some ⟨"library_id", none⟩ ∧
    spec_nested_order [] [] "id" = ["id"] ∧
    (some (⟨"library_id", none⟩ : WindowSpec) ≠
      some ⟨"library_id", some (spec_nested_order [] [] "id")⟩) :=
  ⟨rfl, rfl, rfl, by decide⟩

/-- Projections of the queryset untouched by `optimize_queryset`'s
directive updates: the model's default ordering and the current
ordering pass through unchanged from the hooked queryset. -/
theorem optimize_queryset_preserves_ordering
    (hook : QuerySet → QuerySet) (t : QueryOptimizer) (disable_only : Bool) (qs : QuerySet) :
    (optimize_queryset hook t disable_only qs).queryset.model_ordering =
      (hook qs).model_ordering ∧
    (optimize_queryset hook t disable_only qs).queryset.ordering = (hook qs).ordering := by
  simp [optimize_queryset, mark_optimized, apply_ite QuerySet.model_ordering,
    apply_ite QuerySet.ordering]

/-- C6 amended: with `order_by` unset the top-level queryset is ordered
by the model's declared default ordering (snake-cased), and left with
its prior ordering when none is declared; the nested window's ordering
is the FilterInfo `order_by` when present, else the child model's
default ordering, else the window is left unordered (there is no
primary-key fallback). -/
theorem order_by_fallback_chain :
    (∀ (hook : QuerySet → QuerySet) (snake : String → String) (t : QueryOptimizer)
        (skip disable_only : Bool) (qs : QuerySet),
      is_optimized qs = false →
      (hook qs).model_ordering = qs.model_ordering →
      ∃ qs2, optimize hook snake (.ok t) skip disable_only .noValue qs = .ok qs2 ∧
        qs2.ordering =
          (if qs.model_ordering = []
            then (optimize_queryset hook t disable_only qs).queryset.ordering
            else qs.model_ordering.map snake)) ∧
    (∀ (parent_fields : List (String × String)) (name : String)
        (model_ordering : List String) (filter_info : GraphQLFilterInfo)
        (max_limit : Option Int) (q : ChildQuery) (w : WindowSpec),
      get_prefetch_queryset parent_fields name model_ordering filter_info max_limit = .ok q →
      q.window = some w →
      w.order_by =
        (if (pySplitComma filter_info.order_by).filter (fun x => x ≠ "") ≠ []
          then some ((pySplitComma filter_info.order_by).filter (fun x => x ≠ ""))
          else if model_ordering ≠ [] then some model_ordering else none)) := by
  constructor
  · intro hook snake t skip disable_only qs hopt hmo
    have hpres := optimize_queryset_preserves_ordering hook t disable_only qs
    simp only [optimize, compiler_compile, hopt, Bool.false_eq_true, if_false]
    by_cases hord : qs.model_ordering = []
    · refine ⟨(optimize_queryset hook t disable_only qs).queryset, ?_, ?_⟩
      · simp [parse_order_by_args, hpres.1, hmo, hord]
      · simp [hord]
    · refine ⟨order_queryset (optimize_queryset hook t disable_only qs).queryset
        (qs.model_ordering.map snake), ?_, ?_⟩
      · have hmap : qs.model_ordering.map snake ≠ [] := by
          simp [List.map_eq_nil_iff, hord]
        simp [parse_order_by_args, hpres.1, hmo, hord, hmap]
      · simp [order_queryset, hord]
  · intro parent_fields name model_ordering filter_info max_limit q w hq hw
    unfold get_prefetch_queryset at hq
    split at hq
    · cases hq; simp [baseChildQuery] at hw
    · split at hq
      · cases hq
      · split at hq
        · cases hq; simp [baseChildQuery] at hw
        · split at hq
          · cases hq
          · split at hq
            · cases hq; simp [baseChildQuery] at hw
            · cases hq
              simp only [Option.some.injEq] at hw
              subst hw
              rfl

/-- Witness for C6: top level, the default-ordered `sampleQuerySet`
ends up ordered by `["name"]`; nested, the `apartments(offset: 2)`
window is ordered by the model's default ordering. -/
theorem order_by_fallback_chain_witness :
    (∃ qs2, optimize id id (.ok (.mk [] [] [] [] [])) false false .noValue sampleQuerySet =
        .ok qs2 ∧
      qs2.ordering =
        (if sampleQuerySet.model_ordering = []
          then (optimize_queryset id (.mk [] [] [] [] []) false sampleQuerySet).queryset.ordering
          else sampleQuerySet.model_ordering.map id)) ∧
    (⟨"building_id", some apartmentOrdering⟩ : WindowSpec).order_by =
      (if (pySplitComma offsetFilterInfo.order_by).filter (fun x => x ≠ "") ≠ []
        then some ((pySplitComma offsetFilterInfo.order_by).filter (fun x => x ≠ ""))
        else if apartmentOrdering ≠ [] then some apartmentOrdering else none) :=
  ⟨order_by_fallback_chain.1 id id (.mk [] [] [] [] []) false false sampleQuerySet
      (by decide) rfl,
   order_by_fallback_chain.2 [("apartments", "building_id")] "apartments"
      apartmentOrdering offsetFilterInfo (some 100) offsetChildQuery
      ⟨"building_id", some apartmentOrdering⟩ rfl rfl⟩

/-! ## Promotion of annotated select-related children (C4) -/

/-- In a list whose first components are distinct, a key determines its
entry. -/
theorem fst_nodup_unique {l : List (String × QueryOptimizer)}
    (h : (l.map Prod.fst).Nodup) {a : String} {b c : QueryOptimizer}
    (hb : (a, b) ∈ l) (hc : (a, c) ∈ l) : b = c := by
  induction l with
  | nil => cases hb
  | cons x xs ih =>
    rw [List.map_cons, List.nodup_cons] at h
    rcases List.mem_cons.mp hb with hb1 | hb1 <;> rcases List.mem_cons.mp hc with hc1 | hc1
    · exact congrArg Prod.snd (hb1.trans hc1.symm)
    · exfalso
      apply h.1
      rw [List.mem_map]
      exact ⟨(a, c), hc1, (congrArg Prod.fst hb1 : a = x.1)⟩
    · exfalso
      apply h.1
      rw [List.mem_map]
      exact ⟨(a, b), hb1, (congrArg Prod.fst hc1 : a = x.1)⟩
    · exact ih h.2 hb1 hc1

/-- Every path emitted by `compile` into `select_related` or
`prefetch_related` is non-empty. -/
theorem compile_paths_ne_nil (t : QueryOptimizer) :
    (∀ p ∈ t.compile.select_related, p ≠ []) ∧
    (∀ p ∈ t.compile.prefetch_related, p ≠ []) := by
  obtain ⟨o, rf, anns, sels, prefs⟩ := t
  rw [QueryOptimizer.compile_eq]
  constructor
  · intro p hp
    rw [List.mem_flatMap] at hp
    obtain ⟨⟨m, d⟩, hm, hx⟩ := hp
    by_cases hd : d.annotations = []
    · simp only [hd, ne_eq, not_true_eq_false, if_false, List.mem_cons, List.mem_map] at hx
      rcases hx with h1 | ⟨q, _, h1⟩
      · rw [h1]; simp
      · rw [← h1]; simp
    · simp [hd] at hx
  · intro p hp
    rw [List.mem_append] at hp
    rcases hp with hp | hp
    · rw [List.mem_flatMap] at hp
      obtain ⟨⟨m, d⟩, hm, hx⟩ := hp
      by_cases hd : d.annotations = []
      · simp only [hd, ne_eq, not_true_eq_false, if_false, List.mem_map] at hx
        obtain ⟨q, _, h1⟩ := hx
        rw [← h1]; simp
      · simp only [ne_eq, hd, not_false_eq_true, if_true, List.mem_singleton] at hx
        rw [hx]; simp
    · rw [List.mem_map] at hp
      obtain ⟨x, _, h1⟩ := hp
      rw [← h1]; simp

/-- C4 amended: `compile` emits an inline join for a child registered
under `select_related` iff the child itself carries no annotations; a
child with its own annotations is emitted as a Prefetch descriptor.
(Annotated deeper descendants are promoted where they occur, yielding
prefixed Prefetch descriptors, without changing the parent edge.) -/
theorem select_promotion_is_direct
    (o rf anns : List String) (sels prefs : List (String × QueryOptimizer))
    (hnd : ((sels ++ prefs).map Prod.fst).Nodup)
    (name : String) (child : QueryOptimizer) (hmem : (name, child) ∈ sels) :
    ([name] ∈ (QueryOptimizer.mk o rf anns sels prefs).compile.select_related ↔
      child.annotations = []) ∧
    ([name] ∈ (QueryOptimizer.mk o rf anns sels prefs).compile.prefetch_related ↔
      child.annotations ≠ []) := by
  rw [List.map_append, List.nodup_append] at hnd
  rw [QueryOptimizer.compile_eq]
  constructor
  · constructor
    · intro h
      rw [List.mem_flatMap] at h
      obtain ⟨⟨m, d⟩, hm, hx⟩ := h
      by_cases hd : d.annotations = []
      · simp only [hd, ne_eq, not_true_eq_false, if_false, List.mem_cons, List.mem_map] at hx
        rcases hx with h1 | ⟨q, hq, h1⟩
        · have hmn : m = name := by
            have := congrArg (fun l => l.headI) h1
            simpa using this.symm
          subst hmn
          rw [fst_nodup_unique hnd.1 hmem hm]
          exact hd
        · exfalso
          have hqn : q = [] := by
            have := congrArg List.tail h1
            simpa using this
          exact (compile_paths_ne_nil d).1 q hq hqn
      · simp [hd] at hx
    · intro h
      rw [List.mem_flatMap]
      refine ⟨(name, child), hmem, ?_⟩
      simp [h]
  · constructor
    · intro h
      rw [List.mem_append] at h
      rcases h with h | h
      · rw [List.mem_flatMap] at h
        obtain ⟨⟨m, d⟩, hm, hx⟩ := h
        by_cases hd : d.annotations = []
        · simp only [hd, ne_eq, not_true_eq_false, if_false, List.mem_map] at hx
          obtain ⟨q, hq, h1⟩ := hx
          exfalso
          have hqn : q = [] := by
            have := congrArg List.tail h1
            simpa using this
          exact (compile_paths_ne_nil d).2 q hq hqn
        · simp only [ne_eq, hd, not_false_eq_true, if_true, List.mem_singleton,
            List.cons.injEq, and_true] at hx
          rw [fst_nodup_unique hnd.1 hmem (hx ▸ hm)]
          exact hd
      · exfalso
        rw [List.mem_map] at h
        obtain ⟨x, hx, h1⟩ := h
        have hxn : x.1 = name := by
          have := congrArg (fun l => l.headI) h1
          simpa using this
        exact hnd.2.2 (List.mem_map.mpr ⟨(name, child), hmem, rfl⟩)
          (List.mem_map.mpr ⟨x, hx, hxn⟩)
    · intro h
      rw [List.mem_append]
      left
      rw [List.mem_flatMap]
      refine ⟨(name, child), hmem, ?_⟩
      simp [h]

/-- C4 counterexample: `exMid` has no annotations of its own but its
descendant `exInner` does; the claim demands the edge `a` be emitted as
a Prefetch descriptor, yet `compile` emits it as an inline join
(`["a"] ∈ select_related`, `["a"] ∉ prefetch_related`) and only the
descendant edge becomes the prefixed prefetch `["a", "b"]`. -/
theorem select_promotion_not_transitive :
    exInner.annotations ≠ [] ∧
    exMid.annotations = [] ∧
    exRoot.compile.select_related = [["a"]] ∧
    exRoot.compile.prefetch_related = [["a", "b"]] ∧
    ["a"] ∈ exRoot.compile.select_related ∧
    ["a"] ∉ exRoot.compile.prefetch_related := by
  have hsel : exRoot.compile.select_related = [["a"]] := by
    simp [exRoot, exMid, exInner, QueryOptimizer.compile_eq, QueryOptimizer.annotations]
  have hpre : exRoot.compile.prefetch_related = [["a", "b"]] := by
    simp [exRoot, exMid, exInner, QueryOptimizer.compile_eq, QueryOptimizer.annotations]
  refine ⟨by simp [exInner, QueryOptimizer.annotations], rfl, hsel, hpre, ?_, ?_⟩
  · rw [hsel]; simp
  · rw [hpre]; simp

/-- Witness for C4 at the one-child tree rooted over `exMid`. -/
theorem select_promotion_is_direct_witness :
    (["a"] ∈ (QueryOptimizer.mk [] [] [] [("a", exMid)] []).compile.select_related ↔
      exMid.annotations = []) ∧
    (["a"] ∈ (QueryOptimizer.mk [] [] [] [("a", exMid)] []).compile.prefetch_related ↔
      exMid.annotations ≠ []) :=
  select_promotion_is_direct [] [] [] [("a", exMid)] [] (by simp) "a" exMid
    (List.mem_singleton.mpr rfl)

end QueryOptimizerProof
